import Mathlib

set_option linter.unusedVariables false

/- Shallow embedding of src/Rotor_control.py: the rotctld supervisor, the
   rotctl command client, the position display updates, the configuration
   loader and the serial-port refresh of the RotorGUI class. Machine floats
   on the wire are decimal text; they are modelled exactly as rationals. -/

/-- Python whitespace test: the character class removed by str.strip()
    with no argument (space, tab, newline, carriage return, vertical tab,
    form feed). -/
def isPySpace (c : Char) : Bool :=
  c = ' ' || c = '\t' || c = '\n' || c = '\r' || c.toNat = 11 || c.toNat = 12

/-- Python str.strip() with no argument: remove leading and trailing
    whitespace. Used by log_msg drains (line 217) and inside float(). -/
def pyStrip (s : String) : String :=
  String.mk (((s.data.dropWhile isPySpace).reverse.dropWhile isPySpace).reverse)

/-- Value of a list of decimal digit characters, most significant first. -/
def natOfDigits (ds : List Char) : Nat :=
  ds.foldl (fun n c => 10 * n + (c.toNat - 48)) 0

/-- Split a character list into its leading run of decimal digits and the
    rest. -/
def takeDigits (cs : List Char) : List Char × List Char :=
  (cs.takeWhile Char.isDigit, cs.dropWhile Char.isDigit)

/-- Python float() applied to a string, on the decimal forms used by the
    rotctl protocol: optional surrounding whitespace, an optional sign, a
    decimal mantissa with an optional fractional part, and an optional
    decimal exponent. Returns none exactly when Python float() raises
    ValueError on such input. The special forms inf, infinity, nan and
    digit-group underscores are outside the protocol and not modelled. -/
def pyFloat (s : String) : Option ℚ :=
  let cs := (pyStrip s).data
  let sgnCs : Int × List Char :=
    match cs with
    | '+' :: rest => (1, rest)
    | '-' :: rest => (-1, rest)
    | _ => (1, cs)
  let ipCs := takeDigits sgnCs.2
  let fpCs : List Char × List Char :=
    match ipCs.2 with
    | '.' :: rest => takeDigits rest
    | _ => ([], ipCs.2)
  if ipCs.1 = [] ∧ fpCs.1 = [] then none
  else
    let mantNum : Int := sgnCs.1 * (natOfDigits (ipCs.1 ++ fpCs.1) : Int)
    let mantDen : Nat := 10 ^ fpCs.1.length
    match fpCs.2 with
    | [] => some (mkRat mantNum mantDen)
    | c :: rest =>
      if c = 'e' ∨ c = 'E' then
        let esCs : Bool × List Char :=
          match rest with
          | '+' :: r => (false, r)
          | '-' :: r => (true, r)
          | _ => (false, rest)
        let edCs := takeDigits esCs.2
        if edCs.1 = [] ∨ edCs.2 ≠ [] then none
        else if esCs.1 then some (mkRat mantNum (mantDen * 10 ^ natOfDigits edCs.1))
        else some (mkRat (mantNum * (10 : Int) ^ natOfDigits edCs.1) mantDen)
      else none

/-- The persisted configuration record: the five fields written by
    RotorGUI.save_config and read by RotorGUI.load_config. -/
structure Config where
  model : String
  port : String
  baud : String
  host : String
  tcp : String
deriving DecidableEq

/-- RotorGUI.load_config, lines 101 to 111: when the configuration file
    exists, its parsed JSON contents are returned unchanged; otherwise the
    literal default record is returned. The argument is none when
    os.path.exists is false, and some of the parsed contents otherwise. -/
def load_config (file : Option Config) : Config :=
  match file with
  | some c => c
  | none =>
    { model := "601", port := "/dev/ttyUSB0", baud := "1200",
      host := "127.0.0.1", tcp := "4533" }

/-- A child process created by subprocess.Popen. -/
structure Handle where
  pid : Nat
deriving DecidableEq

/-- Observable state of the RotorGUI supervisor: the Tk string variables
    (cfgVars), the saved configuration file, the rotctld Popen handle, the
    log widget lines, the error boxes shown, the terminate requests issued
    and the Popen invocations attempted. -/
structure SupState where
  cfgVars : Config
  savedFile : Option Config
  rotctld : Option Handle
  log : List String
  errorBoxes : List String
  termRequests : List Nat
  popenCalls : List (List String)
deriving DecidableEq

/-- The rotctld command line built at lines 191 to 199 from the Tk
    variables. -/
def rotctldCmd (c : Config) : List String :=
  ["rotctld", "-m", c.model, "-r", c.port, "-s", c.baud,
   "-T", c.host, "-t", c.tcp, "-vvvv"]

/-- RotorGUI.save_config, lines 113 to 122: write the current Tk
    variables to the configuration file. -/
def save_config (s : SupState) : SupState :=
  { s with savedFile := some s.cfgVars }

/-- Outcome of the subprocess.Popen call, supplied by the environment:
    either a fresh process handle or the exception message. -/
inductive SpawnOutcome where
  | ok (h : Handle)
  | err (msg : String)
deriving DecidableEq

/-- RotorGUI.start_rotctld, lines 189 to 207: save the configuration,
    call Popen on the rotctld command line, and on success store the new
    handle in self.rotctld and log a start message; on a Popen exception
    show an error box. No check of an existing handle is made anywhere. -/
def start_rotctld (spawn : SpawnOutcome) (s : SupState) : SupState :=
  let s1 := save_config s
  let s2 := { s1 with popenCalls := s1.popenCalls ++ [rotctldCmd s1.cfgVars] }
  match spawn with
  | .ok h => { s2 with rotctld := some h, log := s2.log ++ ["rotctld started"] }
  | .err e => { s2 with errorBoxes := s2.errorBoxes ++ [e] }

/-- RotorGUI.stop_rotctld, lines 209 to 213: when self.rotctld is set,
    terminate it, clear the field and log a stop message; when it is None
    the guarded body is skipped entirely. -/
def stop_rotctld (s : SupState) : SupState :=
  match s.rotctld with
  | none => s
  | some h =>
    { s with termRequests := s.termRequests ++ [h.pid],
             rotctld := none,
             log := s.log ++ ["rotctld stopped"] }

/-- Output produced by the rotctld child on the two pipes that Popen
    captures at lines 201 to 203 (stdout=PIPE and stderr=PIPE). -/
structure ProcOutput where
  stdoutLines : List String
  stderrLines : List String
deriving DecidableEq

/-- RotorGUI.read_output, lines 215 to 217: iterate over the stdout pipe
    of the child until it closes, appending each stripped line to the log
    via log_msg. The stderr pipe is never read, and the loop simply
    returns when the stream ends. -/
def read_output (p : ProcOutput) (s : SupState) : SupState :=
  { s with log := s.log ++ p.stdoutLines.map pyStrip }

/-- The arguments of one subprocess.run invocation: the argument vector,
    capture_output, text, and the timeout parameter (none models the
    Python default timeout=None, meaning no timeout at all). -/
structure RunCall where
  args : List String
  captureOutput : Bool
  text : Bool
  timeout : Option Nat
deriving DecidableEq

/-- RotorGUI.rotctl, lines 219 to 222: the subprocess.run call issued for
    every command, built from the host and tcp Tk variables plus the
    command arguments. No timeout argument is passed. -/
def rotctl (host tcp : String) (extra : List String) : RunCall :=
  { args := ["rotctl", "-m", "2", "-r", host ++ ":" ++ tcp] ++ extra,
    captureOutput := true, text := true, timeout := none }

/-- RotorGUI.set_position, lines 224 to 225: one rotctl run with command
    P and the two entry values. -/
def set_position (host tcp az el : String) : RunCall :=
  rotctl host tcp ["P", az, el]

/-- The rotctl run issued by RotorGUI.get_position at line 228: command p
    with no arguments. -/
def get_position_run (host tcp : String) : RunCall :=
  rotctl host tcp ["p"]

/-- A Python exception escaping a handler. -/
inductive PyErr where
  | valueError (arg : String)
deriving DecidableEq

deriving instance DecidableEq for Except

/-- Compass.update_azimuth, lines 40 to 49: redraw the pointer at the
    given angle, used unmodified. The state kept is the drawn angle. -/
def update_azimuth (angle : ℚ) : ℚ := angle

/-- ElevationIndicator.update_elevation, lines 72 to 82: the angle is
    clamped to the interval from 0 to 180 at line 75 before the pointer
    is drawn. -/
def update_elevation (angle : ℚ) : ℚ := max 0 (min 180 angle)

/-- The two needle angles currently drawn by the Compass and the
    ElevationIndicator widgets. -/
structure Displays where
  compassAz : ℚ
  elevAngle : ℚ
deriving DecidableEq

/-- RotorGUI.get_position, lines 227 to 233, run on the reply lines (the
    splitlines of the stripped rotctl stdout). With at least two lines,
    the locals az and el are parsed by float() in that order (a parse
    failure raises ValueError, the error case) and the two widgets are
    updated from them; with fewer than two lines the guarded body is
    skipped. The first component of a successful result is the pair of
    locals az and el, some exactly when the body ran; the second is the
    resulting widget state. -/
def get_position (out : List String) (d : Displays) :
    Except PyErr (Option (ℚ × ℚ) × Displays) :=
  match out with
  | l1 :: l2 :: _ =>
    match pyFloat l1 with
    | none => .error (.valueError l1)
    | some az =>
      match pyFloat l2 with
      | none => .error (.valueError l2)
      | some el =>
        .ok (some (az, el),
             { compassAz := update_azimuth az, elevAngle := update_elevation el })
  | _ => .ok (none, d)

/-- A sequence of presses of the Get button, each running get_position on
    the reply received at that press. The Tk main loop catches an
    exception escaping a callback and keeps running, so a failing press
    leaves the widgets unchanged and later presses still run. -/
def runTicks (replies : List (List String)) (d : Displays) : Displays :=
  replies.foldl
    (fun st out =>
      match get_position out st with
      | .ok r => r.2
      | .error _ => st) d

/-- The Tk state touched by RotorGUI.update_ports: the selected port
    string variable and the value list of the port combobox. -/
structure PortState where
  portVar : String
  portBoxValues : List String
deriving DecidableEq

/-- RotorGUI.update_ports, lines 182 to 187: when pyserial is absent
    (list_ports is None, the none argument) nothing happens; otherwise
    the combobox values are set to the enumerated device list and, when
    that list is nonempty and the current selection is not in it, the
    selection is reset to the first entry. -/
def update_ports (avail : Option (List String)) (s : PortState) : PortState :=
  match avail with
  | none => s
  | some ports =>
    let s1 : PortState := { s with portBoxValues := ports }
    match ports with
    | [] => s1
    | p :: _ => if s1.portVar ∈ ports then s1 else { s1 with portVar := p }

/-- The default configuration, as loaded with no file present. -/
def cfg0 : Config := load_config none

/-- A supervisor state with no daemon and empty observables. -/
def sup0 : SupState :=
  { cfgVars := cfg0, savedFile := none, rotctld := none,
    log := [], errorBoxes := [], termRequests := [], popenCalls := [] }

/-- A supervisor state in which a daemon handle is present. -/
def runningState : SupState :=
  { cfgVars := cfg0, savedFile := some cfg0,
    rotctld := some { pid := 100 }, log := ["rotctld started"],
    errorBoxes := [], termRequests := [],
    popenCalls := [rotctldCmd cfg0] }

/- ------------------------------------------------------------------ -/
/- Theorems                                                            -/
/- ------------------------------------------------------------------ -/

/-- Helper: running a concatenated sequence of Get presses is running the
    first part and then the second. -/
theorem runTicks_append (xs ys : List (List String)) (d : Displays) :
    runTicks (xs ++ ys) d = runTicks ys (runTicks xs d) := by
  simp [runTicks, List.foldl_append]

/-- C10: when no persisted configuration file exists, load_config builds
    the fixed default record (model 601, device /dev/ttyUSB0, baud 1200,
    host 127.0.0.1, tcp port 4533); when the file exists, the
    configuration is exactly its parsed contents. -/
theorem load_config_defaults :
    load_config none =
      { model := "601", port := "/dev/ttyUSB0", baud := "1200",
        host := "127.0.0.1", tcp := "4533" } ∧
    ∀ c : Config, load_config (some c) = c :=
  ⟨rfl, fun _ => rfl⟩

/-- C4: stop on a handle that is already stopped (self.rotctld is None)
    is a no-op success leaving the whole state unchanged, and stop is
    idempotent: a second consecutive stop changes nothing further. -/
theorem stop_rotctld_idempotent (s : SupState) :
    stop_rotctld (stop_rotctld s) = stop_rotctld s ∧
    (s.rotctld = none → stop_rotctld s = s) := by
  constructor
  · cases hr : s.rotctld with
    | none => simp [stop_rotctld, hr]
    | some h => simp [stop_rotctld, hr]
  · intro hn
    simp [stop_rotctld, hn]

/-- Witness for C4 at the concrete stopped state sup0. -/
theorem stop_rotctld_idempotent_witness :
    stop_rotctld sup0 = sup0 :=
  (stop_rotctld_idempotent sup0).2 rfl

/-- C5 (amended): every Command Client invocation, whether the set
    command issued by set_position or the get command issued by
    get_position, is executed by subprocess.run with no timeout at all,
    so a hung daemon can block the call unboundedly. -/
theorem rotctl_commands_have_no_timeout (host tcp az el : String) :
    (set_position host tcp az el).timeout = none ∧
    (get_position_run host tcp).timeout = none ∧
    ∀ extra : List String, (rotctl host tcp extra).timeout = none :=
  ⟨rfl, rfl, fun _ => rfl⟩

/-- C5 counterexample: the get-position round trip for the default
    endpoint runs with no timeout, refuting that every command
    invocation is executed with a timeout. -/
theorem rotctl_no_timeout_cex :
    (get_position_run "127.0.0.1" "4533").timeout = none ∧
    (set_position "127.0.0.1" "4533" "180" "45").timeout = none :=
  ⟨rfl, rfl⟩

/-- C9 (amended): update_ports does mutate program state (it rewrites the
    combobox value list, and the selected port when the current selection
    is absent from a nonempty enumeration), but it is idempotent, and
    when the host provides no enumeration capability it does nothing and
    raises no error. -/
theorem update_ports_idempotent_none_noop (a : Option (List String)) (s : PortState) :
    update_ports a (update_ports a s) = update_ports a s ∧
    update_ports none s = s := by
  refine ⟨?_, rfl⟩
  match a with
  | none => rfl
  | some ports =>
    match ports with
    | [] => simp [update_ports]
    | p :: rest =>
      by_cases hm : s.portVar ∈ p :: rest
      · simp [update_ports, hm]
      · simp [update_ports, hm]

/-- C9 counterexample: update_ports is not free of side effects on
    program state: with one available port differing from the current
    selection, it rewrites both the combobox value list and the selected
    port variable. -/
theorem update_ports_mutates_cex :
    update_ports (some ["/dev/ttyACM0"])
        { portVar := "/dev/ttyUSB0", portBoxValues := [] } =
      { portVar := "/dev/ttyACM0", portBoxValues := ["/dev/ttyACM0"] } ∧
    ({ portVar := "/dev/ttyUSB0", portBoxValues := [] } : PortState) ≠
      { portVar := "/dev/ttyACM0", portBoxValues := ["/dev/ttyACM0"] } := by
  decide

/-- C1 counterexample: with a daemon handle already present (running), a
    second start does not fail with AlreadyRunning: no error box is
    raised, a second Popen call is made, and the supervisor state changes
    (the existing handle is overwritten by the new process). -/
theorem second_start_not_alreadyRunning_cex :
    runningState.rotctld = some { pid := 100 } ∧
    (start_rotctld (.ok { pid := 200 }) runningState).errorBoxes = [] ∧
    (start_rotctld (.ok { pid := 200 }) runningState).rotctld = some { pid := 200 } ∧
    start_rotctld (.ok { pid := 200 }) runningState ≠ runningState := by
  refine ⟨rfl, rfl, rfl, ?_⟩
  decide

/-- C1 (amended): start_rotctld performs no AlreadyRunning check: called
    while a handle is present, a successful spawn saves the config,
    records a fresh Popen invocation, overwrites the handle with the new
    process, logs a start message, raises no error box and terminates
    nothing, so the old process is simply abandoned. -/
theorem second_start_overwrites_handle (s : SupState) (h : Handle)
    (hrun : s.rotctld.isSome) :
    (start_rotctld (.ok h) s).rotctld = some h ∧
    (start_rotctld (.ok h) s).errorBoxes = s.errorBoxes ∧
    (start_rotctld (.ok h) s).termRequests = s.termRequests ∧
    (start_rotctld (.ok h) s).popenCalls = s.popenCalls ++ [rotctldCmd s.cfgVars] ∧
    (start_rotctld (.ok h) s).log = s.log ++ ["rotctld started"] ∧
    (start_rotctld (.ok h) s).savedFile = some s.cfgVars := by
  simp [start_rotctld, save_config]

/-- Witness for the amended C1 at the concrete running state. -/
theorem second_start_overwrites_handle_witness :
    (start_rotctld (.ok { pid := 200 }) runningState).rotctld = some { pid := 200 } :=
  (second_start_overwrites_handle runningState { pid := 200 } (by decide)).1

/-- C2 counterexample: a reply of one single well-formed line does not
    fail with any error: the guarded body of get_position is skipped and
    the call succeeds with the widgets untouched, a silent no-op. -/
theorem short_reply_silent_cex :
    get_position ["4.5"] { compassAz := 0, elevAngle := 0 } =
      .ok (none, { compassAz := 0, elevAngle := 0 }) := rfl

/-- C2 (amended): a reply with fewer than two lines is silently ignored
    by get_position (success, no widget update, no error of any kind),
    while a reply whose first or second line float() cannot parse raises
    an uncaught ValueError escaping the handler instead of a typed
    recoverable failure. -/
theorem get_position_failure_modes (d : Displays) (l1 l2 : String)
    (rest : List String) (a : ℚ) :
    get_position [] d = .ok (none, d) ∧
    get_position [l1] d = .ok (none, d) ∧
    (pyFloat l1 = none →
      get_position (l1 :: l2 :: rest) d = .error (.valueError l1)) ∧
    (pyFloat l1 = some a → pyFloat l2 = none →
      get_position (l1 :: l2 :: rest) d = .error (.valueError l2)) := by
  refine ⟨rfl, rfl, ?_, ?_⟩
  · intro h1
    simp [get_position, h1]
  · intro h1 h2
    simp [get_position, h1, h2]

/-- Witness for the amended C2: a non-numeric first line raises
    ValueError on that line. -/
theorem get_position_failure_modes_witness :
    get_position ["abc", "1", ""] { compassAz := 0, elevAngle := 0 } =
      .error (.valueError "abc") :=
  (get_position_failure_modes { compassAz := 0, elevAngle := 0 }
    "abc" "1" [""] 0).2.2.1 (by decide)

/-- C3: when the first two reply lines parse as floats a and e,
    get_position succeeds; the position it produces (the locals az and
    el) is exactly the pair (a, e), az taken from the first line and el
    from the second, and the widgets are redrawn from that pair. -/
theorem get_position_two_numeric_lines (l1 l2 : String) (rest : List String)
    (d : Displays) (a e : ℚ)
    (h1 : pyFloat l1 = some a) (h2 : pyFloat l2 = some e) :
    get_position (l1 :: l2 :: rest) d =
      .ok (some (a, e),
           { compassAz := update_azimuth a, elevAngle := update_elevation e }) := by
  simp [get_position, h1, h2]

/-- Witness for C3 on the concrete reply lines 180.5 and 45. -/
theorem get_position_two_numeric_lines_witness :
    get_position ["180.5", "45", "extra"] { compassAz := 0, elevAngle := 0 } =
      .ok (some (mkRat 361 2, 45),
           { compassAz := update_azimuth (mkRat 361 2),
             elevAngle := update_elevation 45 }) :=
  get_position_two_numeric_lines "180.5" "45" ["extra"]
    { compassAz := 0, elevAngle := 0 } (mkRat 361 2) 45 (by decide) (by decide)

/-- C6 counterexample: a line written by the daemon on stderr, although
    captured into a pipe by Popen, is never read and never reaches the
    log sink: after the drain the log is still empty. -/
theorem stderr_line_lost_cex :
    (read_output { stdoutLines := [], stderrLines := ["serial error"] } sup0).log
      = [] := rfl

/-- C6 (amended): read_output delivers exactly the stdout lines, each
    stripped, appended to the log in production order without loss; the
    captured stderr lines are never delivered at all. -/
theorem read_output_delivers_stdout_in_order (p : ProcOutput) (s : SupState) :
    (read_output p s).log = s.log ++ p.stdoutLines.map pyStrip := rfl

/-- C7 counterexample: when the running daemon exits producing no further
    output, the drain loop simply ends and the supervisor state is
    entirely unchanged: the stale handle remains in place, no Failed
    transition happens and no UnexpectedExit is reported anywhere. -/
theorem silent_exit_cex :
    (runningState.rotctld = some { pid := 100 }) ∧
    read_output { stdoutLines := [], stderrLines := [] } runningState
      = runningState := by
  refine ⟨rfl, ?_⟩
  simp [read_output]

/-- C7 (amended): a daemon exit only ends the read loop; whatever output
    the process produced before exiting, read_output never changes the
    handle, never shows an error box and never issues a terminate, so the
    exit is silently swallowed. -/
theorem read_output_no_exit_transition (p : ProcOutput) (s : SupState) :
    (read_output p s).rotctld = s.rotctld ∧
    (read_output p s).errorBoxes = s.errorBoxes ∧
    (read_output p s).termRequests = s.termRequests :=
  ⟨rfl, rfl, rfl⟩

/-- C8 counterexample: a failing position query records no error in any
    state: the program has no PollState, and the failure escapes the
    handler as an uncaught ValueError exception. -/
theorem failed_tick_raises_cex :
    get_position ["abc", "2.0"] { compassAz := 10, elevAngle := 20 } =
      .error (.valueError "abc") := rfl

/-- C8 (amended): there is no polling loop; position queries run once per
    user Get press. A press whose query fails leaves the displayed
    position unchanged and records no error anywhere, and later presses
    still run, so a subsequent successful press updates the display
    again. -/
theorem failed_tick_skipped_polling_continues
    (pre post : List (List String)) (out : List String) (d : Displays)
    (he : ∃ e, get_position out (runTicks pre d) = .error e) :
    runTicks (pre ++ out :: post) d = runTicks post (runTicks pre d) := by
  obtain ⟨e, he⟩ := he
  rw [runTicks_append]
  generalize runTicks pre d = st at he ⊢
  simp only [runTicks, List.foldl_cons, he]

/-- Witness for the amended C8: press two succeeds, press three fails,
    press four succeeds; the sequence continues past the failure. -/
theorem failed_tick_skipped_witness :
    runTicks ([["10", "20"]] ++ ["abc", "1"] :: [["30", "40"]])
        { compassAz := 0, elevAngle := 0 } =
      runTicks [["30", "40"]]
        (runTicks [["10", "20"]] { compassAz := 0, elevAngle := 0 }) :=
  failed_tick_skipped_polling_continues [["10", "20"]] [["30", "40"]]
    ["abc", "1"] { compassAz := 0, elevAngle := 0 }
    ⟨.valueError "abc", by decide⟩
